import Mathlib

/-!
Shallow embedding of the car-identifier front end (src/pages/Home.tsx).

The embedding models, at the level of characters and explicit state values:
  * `formatAnalysis` — the line-pattern formatter that turns the analysis
    free text into display blocks;
  * `handleImageUpload` — file-selection validation (type / size guards)
    and the read/analyze hand-off;
  * `handleAnalyze` — the analyze action split into its synchronous start
    phase and its completion phase;
  * `loadDefaultContent` — the initial load of the bundled default
    image/analysis pair, with counters for the outbound requests it issues.
JavaScript strings are modelled as `String`/`List Char`; the string
operations used by the source (trim, split, startsWith, includes,
substring, replace with the specific regexes appearing in the source) are
given explicit structural definitions below.
-/

namespace CarIdentifier

/-- Characters removed by the markdown-stripping replace of Home.tsx line
138: asterisk, underscore, hash and backtick (character code 96). -/
def mdChar (c : Char) : Bool :=
  c == '*' || c == '_' || c == '#' || c == Char.ofNat 96

/-- JavaScript `String.prototype.trim` on a character list: whitespace
removed from both ends only. -/
def trimChars (l : List Char) : List Char :=
  ((l.dropWhile Char.isWhitespace).reverse.dropWhile Char.isWhitespace).reverse

/-- Model of the per-line cleaning of Home.tsx line 138: remove every
markdown character anywhere in the line, then trim both ends. -/
def cleanChars (l : List Char) : List Char :=
  trimChars (l.filter (fun c => !mdChar c))

/-- Model of the numbered-header regex test of Home.tsx line 142: one or
more leading digits followed by a period. -/
def isNumberedHeader (l : List Char) : Bool :=
  if (l.takeWhile Char.isDigit).isEmpty then false
  else
    match l.dropWhile Char.isDigit with
    | '.' :: _ => true
    | _ => false

/-- Model of the header-numeral removal of Home.tsx line 146: drop the
leading digit run, the period and any following whitespace; if the pattern
does not match, the string is unchanged. -/
def stripHeaderNumber (l : List Char) : List Char :=
  if (l.takeWhile Char.isDigit).isEmpty then l
  else
    match l.dropWhile Char.isDigit with
    | '.' :: rest => rest.dropWhile Char.isWhitespace
    | _ => l

/-- Model of the label part of the colon split of Home.tsx line 154: the
segment before the first colon. -/
def labelChars (l : List Char) : List Char :=
  l.takeWhile (fun c => c != ':')

/-- Model of the value part of the colon split of Home.tsx lines 154-155:
everything after the first colon, later colons kept (the source rejoins the
remaining split segments with colons). -/
def valueChars (l : List Char) : List Char :=
  (l.dropWhile (fun c => c != ':')).drop 1

/-- Model of JavaScript `String.prototype.startsWith` restricted to the
uses in the source. -/
def listStartsWith : List Char → List Char → Bool
  | [], _ => true
  | _ :: _, [] => false
  | p :: ps, c :: cs => p == c && listStartsWith ps cs

/-- String-level wrapper for `listStartsWith`. -/
def startsWithStr (s pre : String) : Bool :=
  listStartsWith pre.data s.data

/-- The typed rendering unit produced from one line of the analysis text
(spec: DisplayBlock). -/
inductive DisplayBlock : Type
  | sectionHeader (title : String)
  | labeledItem (label : String) (value : String)
  | bulletItem (text : String)
  | paragraphText (text : String)
deriving Repr, DecidableEq

/-- Strings carried by a display block (title / label / value / text). -/
def blockStrings : DisplayBlock → List String
  | .sectionHeader t => [t]
  | .labeledItem l v => [l, v]
  | .bulletItem t => [t]
  | .paragraphText t => [t]

/-- Classification of one non-empty cleaned line (Home.tsx lines 141-179):
numbered section header, dash-and-colon labeled item, plain dash bullet, or
paragraph text, tried in that order. -/
def classifyClean (c : List Char) : DisplayBlock :=
  if isNumberedHeader c then
    .sectionHeader (String.mk (stripHeaderNumber c))
  else if listStartsWith ['-'] c && c.contains ':' then
    .labeledItem (String.mk (trimChars (labelChars (c.drop 1))))
      (String.mk (trimChars (valueChars (c.drop 1))))
  else if listStartsWith ['-'] c then
    .bulletItem (String.mk (trimChars (c.drop 1)))
  else
    .paragraphText (String.mk c)

/-- Per-line step of `formatAnalysis` (Home.tsx lines 136-179): clean the
line; emit nothing if the cleaned line is empty, otherwise classify it. -/
def classifyLine (line : String) : Option DisplayBlock :=
  let c := cleanChars line.data
  if c.isEmpty then none else some (classifyClean c)

/-- JavaScript string split with the single-character newline separator:
every newline splits, empty segments are kept. -/
def splitLinesChars : List Char → List (List Char)
  | [] => [[]]
  | c :: rest =>
    if c = '\n' then [] :: splitLinesChars rest
    else
      match splitLinesChars rest with
      | [] => [[c]]
      | h :: t => (c :: h) :: t

/-- Model of the newline split applied to the analysis text (Home.tsx
line 136). -/
def splitLines (s : String) : List String :=
  (splitLinesChars s.data).map String.mk

/-- Model of `formatAnalysis` (Home.tsx lines 135-181): split the text on
newlines, classify each line independently, drop the lines that produce no
block (the source's `.filter(Boolean)`). -/
def formatAnalysis (text : String) : List DisplayBlock :=
  (splitLines text).filterMap classifyLine

/-- The UI state owned by the Home component: current image (data URL),
analysis text, loading flag and error message (spec: UIState). -/
structure UIState : Type where
  image : Option String
  analysis : String
  loading : Bool
  error : Option String
deriving Repr, DecidableEq

/-- State before the initial-load effect runs (Home.tsx lines 48-51). -/
def initialUIState : UIState :=
  { image := none, analysis := "", loading := false, error := none }

/-- Outcome of the awaited `analyzeImage` call as observed by the `catch`
in `handleAnalyze`: a result text, a thrown `Error` carrying a message, or
a thrown non-`Error` value. -/
inductive AnalyzeOutcome : Type
  | success (text : String)
  | errorWith (msg : String)
  | thrownNonError
deriving Repr, DecidableEq

/-- The synchronous start phase of `handleAnalyze` (Home.tsx lines
117-118): `setLoading(true); setError(null);` before the call is awaited. -/
def handleAnalyzeStart (s : UIState) : UIState :=
  { s with loading := true, error := none }

/-- The completion phase of `handleAnalyze` (Home.tsx lines 120-128): on
success store the result text; on a thrown value set the error message,
using the fallback message of line 124 when the thrown value is not an
`Error`; in both cases clear the loading flag. -/
def handleAnalyzeFinish (s : UIState) : AnalyzeOutcome → UIState
  | .success t => { s with analysis := t, loading := false }
  | .errorWith m => { s with error := some m, loading := false }
  | .thrownNonError =>
    { s with error := some "Failed to analyze image. Please try again.",
             loading := false }

/-- Full effect of one `handleAnalyze` invocation whose awaited call ends
with the given outcome. -/
def handleAnalyze (s : UIState) (r : AnalyzeOutcome) : UIState :=
  handleAnalyzeFinish (handleAnalyzeStart s) r

/-- Modelled from the spec: `analyzeImage` (src/lib/gemini) is not under
src/; per spec section 4.2, every failure of the AnalysisClient is
"surfaced as a distinct human-readable message", so a failing outcome is a
thrown `Error` with a non-empty message, or a thrown non-`Error` value. -/
def SpecAnalysisFailure (r : AnalyzeOutcome) : Prop :=
  (∃ m, r = .errorWith m ∧ m ≠ "") ∨ r = .thrownNonError

/-- A user-selected file as the upload handler sees it: declared media
type and byte size. -/
structure JSFile : Type where
  type : String
  size : Nat
deriving Repr, DecidableEq

/-- The size limit of Home.tsx line 95: 20 × 1024 × 1024 bytes. -/
def maxUploadBytes : Nat := 20 * 1024 * 1024

/-- Result of the pre-flight guards of `handleImageUpload`. -/
inductive UploadValidation : Type
  | invalidType
  | tooLarge
  | accepted
deriving Repr, DecidableEq

/-- The guard sequence of Home.tsx lines 90-98: reject unless the declared
type starts with `image/`; then reject if the size strictly exceeds the
20 MiB limit; otherwise proceed. -/
def validateUpload (f : JSFile) : UploadValidation :=
  if !(startsWithStr f.type "image/") then .invalidType
  else if f.size > maxUploadBytes then .tooLarge
  else .accepted

/-- Outcome of the `FileReader.readAsDataURL` started for an accepted
file: `onloadend` with the data URL, or `onerror`. -/
inductive ReadOutcome : Type
  | ok (dataUrl : String)
  | err
deriving Repr, DecidableEq

/-- Observable result of one `handleImageUpload` invocation: the UI state
when the handler (and its reader callback, if any) has run up to the point
where an analyze call would be awaited, whether a file read (encoding) was
started, and whether an analyze call was started. -/
structure UploadResult : Type where
  state : UIState
  readStarted : Bool
  analyzeStarted : Bool
deriving Repr, DecidableEq

/-- Model of `handleImageUpload` (Home.tsx lines 86-114): no file selected
returns immediately; a file failing a guard only sets the error message; an
accepted file starts a read, and on read success the image is set, the
error cleared and `handleAnalyze` is started with the new data URL (the
analyze completion itself is `handleAnalyzeFinish`). -/
def handleImageUpload (s : UIState) (file? : Option JSFile)
    (read : ReadOutcome) : UploadResult :=
  match file? with
  | none => ⟨s, false, false⟩
  | some file =>
    match validateUpload file with
    | .invalidType =>
      ⟨{ s with error := some "Please upload a valid image file" },
        false, false⟩
    | .tooLarge =>
      ⟨{ s with error := some "Image size should be less than 20MB" },
        false, false⟩
    | .accepted =>
      match read with
      | .ok dataUrl =>
        ⟨handleAnalyzeStart { s with image := some dataUrl, error := none },
          true, true⟩
      | .err =>
        ⟨{ s with error :=
              some "Failed to read the image file. Please try again." },
          true, false⟩

/-- The `accept` attribute of the file input (Home.tsx line 204). -/
def acceptedMediaTypes : List String :=
  ["image/jpeg", "image/png", "image/jpg", "image/webp"]

/-- The bundled default image path (Home.tsx line 7). -/
def DEFAULT_IMAGE : String := "/default-car.jpg"

/-- The bundled canned analysis text (Home.tsx lines 10-45). -/
def DEFAULT_ANALYSIS : String :=
  "1. Car Identification:\n- Make: Porsche\n- Model: 911 (992 Series)\n- Year Range: 2019-Present\n- Variant: Carrera S\n- Body Style: Coupe\n- Distinguishing Features: Iconic sloping rear, wide rear fenders, LED light bar\n\n2. Technical Specifications:\n- Engine: 3.0L Twin-Turbocharged Flat-Six\n- Power Output: Approximately 443 hp (330 kW)\n- Transmission: 8-speed PDK dual-clutch automatic or 7-speed manual\n- Drivetrain: Rear-wheel drive (RWD)\n- 0-60 mph: Around 3.5 seconds\n- Top Speed: Approximately 191 mph (307 km/h)\n\n3. Design & Features:\n- Exterior: Streamlined profile, LED headlights, retractable door handles\n- Interior: Digital instrument cluster, 10.9-inch touchscreen, minimalist design\n- Safety Systems: Adaptive cruise control, lane keep assist, automatic emergency braking\n- Technology: Apple CarPlay, Android Auto, navigation system, Porsche Connect\n- Notable Options: Sport Chrono package, ceramic brakes, adaptive suspension\n\n4. Market & Value:\n- Starting Price: $115,000-$130,000 (base model, when new)\n- Current Market Position: Premium sports car segment\n- Competitors: Ferrari F8, McLaren 570S, Audi R8, Mercedes-AMG GT\n- Depreciation Rate: Lower than average (strong value retention)\n- Collectibility Potential: High (continuing the legacy of the iconic 911 line)\n\n5. Additional Information:\n- Heritage: Continues the lineage of the 911, first introduced in 1963\n- Performance History: Extensive motorsport heritage in endurance racing\n- Interesting Facts: The 992 is the 8th generation of the Porsche 911\n- Environmental Rating: Improved fuel efficiency over previous generations\n- Ownership Considerations: High-performance driving experience, specialized maintenance"

/-- Outcome of the `fetch(DEFAULT_IMAGE)` of Home.tsx line 59: a
successful response with a body, a non-ok response, or a thrown transport
error. -/
inductive FetchOutcome : Type
  | ok (body : String)
  | notOk
  | failed
deriving Repr, DecidableEq

/-- Observable result of running `loadDefaultContent`: the final UI state
and counters of the HTTP requests issued by `fetch` and of the
`analyzeImage` calls issued. -/
structure LoadResult : Type where
  state : UIState
  fetchCalls : Nat
  analyzeCalls : Nat
deriving Repr, DecidableEq

/-- Model of `loadDefaultContent` (Home.tsx lines 54-84): set loading,
issue one fetch of `DEFAULT_IMAGE`; on an ok response read the blob as a
data URL and on read success set the image to that data URL, set the
analysis to `DEFAULT_ANALYSIS` and clear loading; every failure (non-ok
response, thrown fetch, reader error) sets the fixed error message and
clears loading. No `analyzeImage` call is ever issued. -/
def loadDefaultContent (s : UIState) (fetch : FetchOutcome)
    (read : ReadOutcome) : LoadResult :=
  let s1 := { s with loading := true }
  match fetch with
  | .ok _ =>
    match read with
    | .ok dataUrl =>
      ⟨{ s1 with image := some dataUrl, analysis := DEFAULT_ANALYSIS,
                 loading := false }, 1, 0⟩
    | .err =>
      ⟨{ s1 with error := some "Failed to load default image",
                 loading := false }, 1, 0⟩
  | .notOk =>
    ⟨{ s1 with error := some "Failed to load default image",
               loading := false }, 1, 0⟩
  | .failed =>
    ⟨{ s1 with error := some "Failed to load default image",
               loading := false }, 1, 0⟩

/-- C1: when the awaited analysis call fails, the analysis text is
unchanged from its value before the call, the loading flag is cleared, and
the error message is set to a non-empty human-readable message. -/
theorem C1_analyze_failure_keeps_analysis (s : UIState) (r : AnalyzeOutcome)
    (h : SpecAnalysisFailure r) :
    (handleAnalyze s r).analysis = s.analysis ∧
    (handleAnalyze s r).loading = false ∧
    ∃ m, (handleAnalyze s r).error = some m ∧ m ≠ "" := by
  rcases h with ⟨m, rfl, hm⟩ | rfl
  · exact ⟨rfl, rfl, m, rfl, hm⟩
  · exact ⟨rfl, rfl, "Failed to analyze image. Please try again.", rfl,
      by decide⟩

/-- Witness for C1 at a concrete failing outcome. -/
theorem C1_analyze_failure_keeps_analysis_witness :
    (handleAnalyze initialUIState (.errorWith "Network error")).analysis =
      initialUIState.analysis ∧
    (handleAnalyze initialUIState (.errorWith "Network error")).loading =
      false ∧
    ∃ m, (handleAnalyze initialUIState (.errorWith "Network error")).error =
      some m ∧ m ≠ "" :=
  C1_analyze_failure_keeps_analysis initialUIState (.errorWith "Network error")
    (Or.inl ⟨"Network error", rfl, by decide⟩)

/-- C8: every analyze invocation clears the error message (and raises the
loading flag) in its synchronous start phase, before the network call is
awaited, leaving image and analysis untouched; the full invocation is the
completion phase applied to that start state. -/
theorem C8_analyze_start_clears_error (s : UIState) (r : AnalyzeOutcome) :
    (handleAnalyzeStart s).error = none ∧
    (handleAnalyzeStart s).loading = true ∧
    (handleAnalyzeStart s).analysis = s.analysis ∧
    (handleAnalyzeStart s).image = s.image ∧
    handleAnalyze s r = handleAnalyzeFinish (handleAnalyzeStart s) r :=
  ⟨rfl, rfl, rfl, rfl, rfl⟩

/-- C9: an upload event carrying no file returns immediately and leaves
every UI state field unchanged, starts no read and no analyze call. -/
theorem C9_upload_no_file_noop (s : UIState) (read : ReadOutcome) :
    handleImageUpload s none read = ⟨s, false, false⟩ ∧
    (handleImageUpload s none read).state.image = s.image ∧
    (handleImageUpload s none read).state.analysis = s.analysis ∧
    (handleImageUpload s none read).state.loading = s.loading ∧
    (handleImageUpload s none read).state.error = s.error :=
  ⟨rfl, rfl, rfl, rfl, rfl⟩

/-- C3: for a file whose declared type passed the image-type guard, upload
validation rejects as too large exactly when the byte size strictly
exceeds 20 × 1024 × 1024; a size rejection only sets the error message and
starts no read and no analyze call; a file of exactly 20 MiB is accepted
and one of 20 MiB + 1 byte is rejected. -/
theorem C3_size_limit (f : JSFile) (s : UIState) (read : ReadOutcome)
    (htype : startsWithStr f.type "image/" = true) :
    (validateUpload f = .tooLarge ↔ maxUploadBytes < f.size) ∧
    (validateUpload f = .tooLarge →
      handleImageUpload s (some f) read =
        ⟨{ s with error := some "Image size should be less than 20MB" },
          false, false⟩) ∧
    validateUpload ⟨"image/png", maxUploadBytes⟩ = .accepted ∧
    validateUpload ⟨"image/png", maxUploadBytes + 1⟩ = .tooLarge := by
  refine ⟨?_, ?_, by decide, by decide⟩
  · unfold validateUpload
    rw [htype]
    by_cases hs : maxUploadBytes < f.size
    · simp [hs]
    · simp [hs]
  · intro h
    simp [handleImageUpload, h]

/-- Witness for C3 at a concrete oversized file. -/
theorem C3_size_limit_witness :
    handleImageUpload initialUIState
        (some ⟨"image/png", maxUploadBytes + 1⟩) .err =
      ⟨{ initialUIState with
          error := some "Image size should be less than 20MB" },
        false, false⟩ ∧
    validateUpload ⟨"image/png", maxUploadBytes⟩ = .accepted := by
  have h := C3_size_limit ⟨"image/png", maxUploadBytes + 1⟩ initialUIState
    .err (by decide)
  exact ⟨h.2.1 (h.1.mpr (by decide)), h.2.2.1⟩

/-- C2 counterexample: a file declared as image/gif, which is not among
the four media types of the accept attribute, passes the upload validation
and proceeds to encoding and analysis, so the claim that every file
passing validation has a media type among jpeg, png, jpg, webp is false on
the code. -/
theorem C2_counterexample_gif_accepted :
    validateUpload ⟨"image/gif", 1000⟩ = .accepted ∧
    ¬ ("image/gif" ∈ acceptedMediaTypes) ∧
    (handleImageUpload initialUIState (some ⟨"image/gif", 1000⟩)
        (.ok "data")).readStarted = true ∧
    (handleImageUpload initialUIState (some ⟨"image/gif", 1000⟩)
        (.ok "data")).analyzeStarted = true := by
  exact ⟨by decide, by decide, rfl, rfl⟩

/-- C2 amended: the upload handler rejects a file with the invalid-type
message exactly when its declared media type does not start with the
string image/, and such a rejection happens before any encoding attempt
(no read, no analyze call); any media type with that six-character head,
such as image/gif, passes the type guard. -/
theorem C2_amended_type_guard (f : JSFile) (s : UIState)
    (read : ReadOutcome) :
    (validateUpload f = .invalidType ↔
      startsWithStr f.type "image/" = false) ∧
    (validateUpload f = .invalidType →
      handleImageUpload s (some f) read =
        ⟨{ s with error := some "Please upload a valid image file" },
          false, false⟩) := by
  constructor
  · by_cases ht : startsWithStr f.type "image/" = true
    · unfold validateUpload
      rw [ht]
      by_cases hs : maxUploadBytes < f.size
      · simp [hs, ht]
      · simp [hs, ht]
    · rw [Bool.not_eq_true] at ht
      unfold validateUpload
      rw [ht]
      simp
  · intro h
    simp [handleImageUpload, h]

/-- Witness for the amended C2 at a concrete non-image file. -/
theorem C2_amended_type_guard_witness :
    handleImageUpload initialUIState (some ⟨"text/plain", 5⟩) .err =
      ⟨{ initialUIState with
          error := some "Please upload a valid image file" },
        false, false⟩ := by
  have h := C2_amended_type_guard ⟨"text/plain", 5⟩ initialUIState .err
  exact h.2 (h.1.mpr (by decide))

/-- C4 counterexample: the initial load of the default content issues one
fetch network request (for the bundled default image), so the claim that
zero network calls are made during the initial load is false on the code. -/
theorem C4_counterexample_fetch_count :
    (loadDefaultContent initialUIState (.ok "bytes") (.ok "dataUrl")
      ).fetchCalls = 1 ∧
    ¬ ((loadDefaultContent initialUIState (.ok "bytes") (.ok "dataUrl")
      ).fetchCalls = 0) :=
  ⟨rfl, by decide⟩

/-- C4 amended: on a first display whose default-image fetch and read
succeed, the analysis text equals the bundled canned text, the current
image is the data URL read from the fetched default image, loading is
cleared, and zero analyze calls but exactly one fetch request are made. -/
theorem C4_amended_initial_load (s : UIState) (body dataUrl : String) :
    (loadDefaultContent s (.ok body) (.ok dataUrl)).state.analysis =
      DEFAULT_ANALYSIS ∧
    (loadDefaultContent s (.ok body) (.ok dataUrl)).state.image =
      some dataUrl ∧
    (loadDefaultContent s (.ok body) (.ok dataUrl)).state.loading = false ∧
    (loadDefaultContent s (.ok body) (.ok dataUrl)).analyzeCalls = 0 ∧
    (loadDefaultContent s (.ok body) (.ok dataUrl)).fetchCalls = 1 :=
  ⟨rfl, rfl, rfl, rfl, rfl⟩

/-- Every character of a trimmed list is a character of the original. -/
theorem mem_of_mem_trimChars {a : Char} {l : List Char}
    (h : a ∈ trimChars l) : a ∈ l := by
  unfold trimChars at h
  rw [List.mem_reverse] at h
  have h2 := (List.dropWhile_sublist _).subset h
  rw [List.mem_reverse] at h2
  exact (List.dropWhile_sublist _).subset h2

/-- No character of a cleaned line is a markdown character. -/
theorem cleanChars_no_md {a : Char} {l : List Char}
    (h : a ∈ cleanChars l) : mdChar a = false := by
  have h1 := mem_of_mem_trimChars h
  have h2 := List.of_mem_filter h1
  simpa using h2

/-- Every character of the header-numeral-stripped list is a character of
the original. -/
theorem mem_of_mem_stripHeaderNumber {a : Char} {l : List Char}
    (h : a ∈ stripHeaderNumber l) : a ∈ l := by
  unfold stripHeaderNumber at h
  split at h
  · exact h
  · split at h
    · next rest heq =>
      have h1 : a ∈ rest := (List.dropWhile_sublist _).subset h
      have h2 : a ∈ l.dropWhile Char.isDigit := by
        rw [heq]
        exact List.mem_cons_of_mem _ h1
      exact (List.dropWhile_sublist _).subset h2
    · exact h

/-- Every character of every string carried by the block classified from a
cleaned line is a character of that cleaned line. -/
theorem classifyClean_chars_sub {c : List Char} {b : DisplayBlock}
    (hb : classifyClean c = b) {s : String} (hs : s ∈ blockStrings b)
    {a : Char} (ha : a ∈ s.data) : a ∈ c := by
  unfold classifyClean at hb
  split at hb
  · subst hb
    simp only [blockStrings, List.mem_singleton] at hs
    subst hs
    exact mem_of_mem_stripHeaderNumber ha
  · split at hb
    · subst hb
      simp only [blockStrings, List.mem_cons, List.not_mem_nil,
        or_false] at hs
      rcases hs with hs | hs
      · subst hs
        have h1 := mem_of_mem_trimChars ha
        have h2 := (List.takeWhile_sublist _).subset h1
        exact (List.drop_sublist 1 c).subset h2
      · subst hs
        have h1 := mem_of_mem_trimChars ha
        have h2 := (List.drop_sublist 1 _).subset h1
        have h3 := (List.dropWhile_sublist _).subset h2
        exact (List.drop_sublist 1 c).subset h3
    · split at hb
      · subst hb
        simp only [blockStrings, List.mem_singleton] at hs
        subst hs
        have h1 := mem_of_mem_trimChars ha
        exact (List.drop_sublist 1 c).subset h1
      · subst hb
        simp only [blockStrings, List.mem_singleton] at hs
        subst hs
        exact ha

/-- Every block emitted by the formatter comes from the classification of
the cleaned form of one input line, which is non-empty. -/
theorem formatAnalysis_block_source {text : String} {b : DisplayBlock}
    (hb : b ∈ formatAnalysis text) :
    ∃ line ∈ splitLines text, (cleanChars line.data).isEmpty = false ∧
      classifyClean (cleanChars line.data) = b := by
  unfold formatAnalysis at hb
  rw [List.mem_filterMap] at hb
  obtain ⟨line, hline, hcl⟩ := hb
  refine ⟨line, hline, ?_⟩
  simp only [classifyLine] at hcl
  split at hcl
  · exact absurd hcl (by simp)
  · next hne =>
    exact ⟨Bool.not_eq_true _ ▸ Bool.of_not_eq_true hne,
      Option.some.inj hcl⟩

/-- C10: no string of any block emitted by the formatter contains an
asterisk, underscore, hash or backtick character: these characters are
removed everywhere in each line before classification. -/
theorem C10_no_markdown_in_blocks (text : String) (b : DisplayBlock)
    (hb : b ∈ formatAnalysis text) (s : String) (hs : s ∈ blockStrings b)
    (a : Char) (ha : a ∈ s.data) : mdChar a = false := by
  obtain ⟨line, _, _, hclass⟩ := formatAnalysis_block_source hb
  exact cleanChars_no_md (classifyClean_chars_sub hclass hs ha)

/-- Witness for C10 at a concrete input containing markdown characters. -/
theorem C10_no_markdown_in_blocks_witness :
    DisplayBlock.labeledItem "Make" "Porsche" ∈
      formatAnalysis "- **Make**: Porsche" ∧
    mdChar 'M' = false :=
  ⟨by decide,
    C10_no_markdown_in_blocks "- **Make**: Porsche"
      (.labeledItem "Make" "Porsche") (by decide) "Make" (by decide)
      'M' (by decide)⟩

/-- A line whose cleaned form passes the numbered-header test has a
non-empty cleaned form. -/
theorem isNumberedHeader_ne_nil {l : List Char}
    (h : isNumberedHeader l = true) : l.isEmpty = false := by
  cases l with
  | nil => simp [isNumberedHeader] at h
  | cons a t => rfl

/-- C5: every input line whose stripped form starts with one or more
digits followed by a period is emitted as a section header whose title is
the remainder after the numeral, the period and any following whitespace;
in particular the canned first line yields the title with the numeral and
period stripped and the rest preserved. -/
theorem C5_section_header (line : String)
    (h : isNumberedHeader (cleanChars line.data) = true) :
    classifyLine line =
      some (.sectionHeader
        (String.mk (stripHeaderNumber (cleanChars line.data)))) ∧
    classifyLine "1. Car Identification:" =
      some (.sectionHeader "Car Identification:") ∧
    formatAnalysis "1. Car Identification:" =
      [.sectionHeader "Car Identification:"] := by
  refine ⟨?_, by decide, by decide⟩
  have hne := isNumberedHeader_ne_nil h
  simp only [classifyLine, hne, Bool.false_eq_true, if_false,
    classifyClean, h, if_true]

/-- Witness for C5 at the concrete canned first line. -/
theorem C5_section_header_witness :
    isNumberedHeader (cleanChars ("1. Car Identification:").data) = true ∧
    classifyLine "1. Car Identification:" =
      some (.sectionHeader
        (String.mk (stripHeaderNumber
          (cleanChars ("1. Car Identification:").data)))) :=
  ⟨by decide, (C5_section_header "1. Car Identification:" (by decide)).1⟩

/-- Splitting on the first colon decomposes a colon-containing list into
the colon-free segment before the first colon, that colon, and the
remainder with all later colons kept. -/
theorem first_colon_decomp (l : List Char) (h : ':' ∈ l) :
    labelChars l ++ ':' :: valueChars l = l ∧ ¬ (':' ∈ labelChars l) := by
  constructor
  · induction l with
    | nil => cases h
    | cons a t ih =>
      by_cases ha : a = ':'
      · subst ha
        simp [labelChars, valueChars, List.takeWhile_cons,
          List.dropWhile_cons]
      · have ht : ':' ∈ t := by
          cases h with
          | head => exact absurd rfl ha
          | tail _ h2 => exact h2
        have hba : (a != ':') = true := by simp [bne_iff_ne, ha]
        simp only [labelChars, valueChars, List.takeWhile_cons,
          List.dropWhile_cons, hba, if_true, List.cons_append,
          List.cons.injEq, true_and]
        exact ih ht
  · intro hmem
    have := List.mem_takeWhile_imp hmem
    simp at this

/-- C6: every stripped line that starts with a dash, contains a colon and
is not a numbered header is emitted as a labeled item whose label is the
trimmed text before the first colon of the post-dash remainder and whose
value is the trimmed text after that first colon, later colons kept inside
the value; in particular the dash-make line of the canned text yields the
labeled item with label Make and value Porsche. -/
theorem C6_labeled_item (line : String) (l : List Char)
    (hhd : isNumberedHeader (cleanChars line.data) = false)
    (hdash : listStartsWith ['-'] (cleanChars line.data) = true)
    (hcol : (cleanChars line.data).contains ':' = true)
    (hl : ':' ∈ l) :
    classifyLine line =
      some (.labeledItem
        (String.mk (trimChars (labelChars ((cleanChars line.data).drop 1))))
        (String.mk (trimChars (valueChars ((cleanChars line.data).drop 1))))) ∧
    labelChars l ++ ':' :: valueChars l = l ∧
    ¬ (':' ∈ labelChars l) ∧
    classifyLine "- Make: Porsche" =
      some (.labeledItem "Make" "Porsche") ∧
    formatAnalysis "- Make: Porsche" = [.labeledItem "Make" "Porsche"] := by
  obtain ⟨hd1, hd2⟩ := first_colon_decomp l hl
  refine ⟨?_, hd1, hd2, by decide, by decide⟩
  have hne : (cleanChars line.data).isEmpty = false := by
    cases hc : cleanChars line.data with
    | nil => rw [hc] at hdash; simp [listStartsWith] at hdash
    | cons a t => rfl
  simp only [classifyLine, hne, Bool.false_eq_true, if_false,
    classifyClean, hhd, if_true, hdash, hcol, Bool.and_self]

/-- Witness for C6 at the concrete canned make line. -/
theorem C6_labeled_item_witness :
    classifyLine "- Make: Porsche" =
      some (.labeledItem
        (String.mk (trimChars (labelChars
          ((cleanChars ("- Make: Porsche").data).drop 1))))
        (String.mk (trimChars (valueChars
          ((cleanChars ("- Make: Porsche").data).drop 1))))) ∧
    labelChars (" Make: Porsche").data ++
        ':' :: valueChars (" Make: Porsche").data =
      (" Make: Porsche").data :=
  ⟨(C6_labeled_item "- Make: Porsche" (" Make: Porsche").data (by decide)
      (by decide) (by decide) (by decide)).1,
    (C6_labeled_item "- Make: Porsche" (" Make: Porsche").data (by decide)
      (by decide) (by decide) (by decide)).2.1⟩

/-- The formatter keeps exactly the lines with a non-empty cleaned form,
in order, classifying each kept line independently. -/
theorem filterMap_classifyLine (ls : List String) :
    ls.filterMap classifyLine =
      (ls.filter (fun l => !(cleanChars l.data).isEmpty)).map
        (fun l => classifyClean (cleanChars l.data)) := by
  induction ls with
  | nil => rfl
  | cons a t ih =>
    by_cases h : (cleanChars a.data).isEmpty = true
    · simp only [List.filterMap_cons, List.filter_cons, classifyLine, h,
        if_true, Bool.not_true, Bool.false_eq_true, if_false, ih]
    · rw [Bool.not_eq_true] at h
      simp only [List.filterMap_cons, List.filter_cons, classifyLine, h,
        Bool.false_eq_true, if_false, Bool.not_false, if_true,
        List.map_cons, ih]

/-- C7: the formatter emits exactly one block per line whose stripped form
is non-empty and none for lines that strip to empty, in source line order,
each line classified independently of every other line; classification is
also local to list concatenation. -/
theorem C7_one_block_per_nonempty_line (text : String) (line : String)
    (xs ys : List String) :
    formatAnalysis text =
      ((splitLines text).filter
        (fun l => !(cleanChars l.data).isEmpty)).map
        (fun l => classifyClean (cleanChars l.data)) ∧
    (classifyLine line = none ↔ (cleanChars line.data).isEmpty = true) ∧
    (xs ++ ys).filterMap classifyLine =
      xs.filterMap classifyLine ++ ys.filterMap classifyLine := by
  refine ⟨filterMap_classifyLine _, ?_, List.filterMap_append _ _ _⟩
  constructor
  · intro h
    by_cases he : (cleanChars line.data).isEmpty = true
    · exact he
    · rw [Bool.not_eq_true] at he
      simp [classifyLine, he] at h
  · intro h
    simp [classifyLine, h]

end CarIdentifier
